import Mathlib

/-!
Shallow embedding of the Potato-Crop-AI repository core
(recommendation engine, task manager, alert system), together with
theorems settling the frozen claims about the natural-language spec.

Conventions of the embedding:
* Python floats are modelled as exact rationals.
* Clock times and datetimes are modelled as integer minutes; a call to
  the system clock becomes an explicit parameter.
* Python dict lookups with defaults become Option values with getD.
* The SQLite task store becomes a list of task rows threaded through
  the stateful operations; the append-only sent-alert table becomes a
  list of (task id, alert kind) records.
-/

/-! ## Recommendation engine: src/recommendation_engine/smart_recommendations.py -/

/-- The GrowthStage enum of the recommendation engine. -/
inductive GrowthStage
  | planting
  | emergence
  | vegetative_growth
  | tuber_initiation
  | tuber_bulking
  | maturation
deriving DecidableEq

/-- GrowthStage(value) coercion from the stage string; none when the string
is not a stage value (the Python constructor raises ValueError). -/
def parseGrowthStage (s : String) : Option GrowthStage :=
  if s = "Planting" then some .planting
  else if s = "Emergence" then some .emergence
  else if s = "Vegetative_Growth" then some .vegetative_growth
  else if s = "Tuber_Initiation" then some .tuber_initiation
  else if s = "Tuber_Bulking" then some .tuber_bulking
  else if s = "Maturation" then some .maturation
  else none

/-- water_requirement_mm column of _initialize_stage_requirements. -/
def waterRequirementMm : GrowthStage → ℚ
  | .planting => 20
  | .emergence => 25
  | .vegetative_growth => 35
  | .tuber_initiation => 45
  | .tuber_bulking => 50
  | .maturation => 15

/-- critical_nutrients column of _initialize_stage_requirements. -/
def criticalNutrients : GrowthStage → List String
  | .planting => ["phosphorus"]
  | .emergence => ["nitrogen", "phosphorus"]
  | .vegetative_growth => ["nitrogen"]
  | .tuber_initiation => ["potassium", "calcium"]
  | .tuber_bulking => ["potassium", "magnesium"]
  | .maturation => []

/-- Keys of the nutrient threshold / price tables. -/
inductive Nutrient
  | nitrogen
  | phosphorus
  | potassium
  | magnesium
  | calcium
deriving DecidableEq

/-- String name of a nutrient, as used for dict keys in the Python code. -/
def nutrientName : Nutrient → String
  | .nitrogen => "nitrogen"
  | .phosphorus => "phosphorus"
  | .potassium => "potassium"
  | .magnesium => "magnesium"
  | .calcium => "calcium"

/-- One row of the nutrient threshold table (ascending breakpoints). -/
structure NutrientThresholds where
  severe_deficiency : ℚ
  deficiency : ℚ
  sufficient : ℚ
  excess : ℚ
deriving DecidableEq

/-- _initialize_nutrient_thresholds of CropManagementExpert. -/
def nutrientThresholds : Nutrient → NutrientThresholds
  | .nitrogen => ⟨25, 35, 45, 75⟩
  | .phosphorus => ⟨12, 18, 25, 40⟩
  | .potassium => ⟨120, 160, 200, 280⟩
  | .magnesium => ⟨40, 60, 80, 140⟩
  | .calcium => ⟨800, 1200, 1500, 2200⟩

/-- _initialize_fertilizer_prices of CropManagementExpert (INR per kg). -/
def fertilizerPrice : Nutrient → ℚ
  | .nitrogen => 996/10
  | .phosphorus => 1245/10
  | .potassium => 664/10
  | .magnesium => 166
  | .calcium => 249/10

/-- Conversion factors (kg/ha per ppm) inside
_generate_fertilizer_recommendations. -/
def conversionFactor : Nutrient → ℚ
  | .nitrogen => 5/2
  | .phosphorus => 4
  | .potassium => 9/5
  | .magnesium => 3
  | .calcium => 1

/-- One zone row of the zone_analysis DataFrame; absent columns are none
(the Python code reads them with .get and a default). -/
structure ZoneData where
  zone_id : Int
  area_ha : Option ℚ := none
  growth_stage : Option String := none
  ndvi_mean : Option ℚ := none
  ndre_mean : Option ℚ := none
  nitrogen_level : Option ℚ := none
  phosphorus_level : Option ℚ := none
  potassium_level : Option ℚ := none
  soil_moisture : Option ℚ := none
deriving DecidableEq

/-- The {nutrient}_level lookup of the zone row; magnesium and calcium
columns never occur in the data, so they read as absent. -/
def ZoneData.levelOf (z : ZoneData) : Nutrient → Option ℚ
  | .nitrogen => z.nitrogen_level
  | .phosphorus => z.phosphorus_level
  | .potassium => z.potassium_level
  | .magnesium => none
  | .calcium => none

/-- The weather forecast dict consumed by the recommendation engine. -/
structure WeatherForecast where
  precipitation_7day : Option ℚ := none
  max_temperature_7day : Option ℚ := none
  avg_temperature_7day : Option ℚ := none
  avg_humidity_7day : Option ℚ := none
deriving DecidableEq

/-- RecommendationType enum. -/
inductive RecommendationType
  | irrigation
  | fertilization
  | pest_management
  | harvesting
deriving DecidableEq

/-- RecommendationAction dataclass. -/
structure RecommendationAction where
  action_type : RecommendationType
  priority : String
  description : String
  timing : String
  zone_ids : List Int
  application_rate : Option ℚ := none
  application_unit : Option String := none
  estimated_cost : Option ℚ := none
  expected_benefit : Option String := none
deriving DecidableEq

/-- ZoneRecommendation dataclass (fields used by the claims). -/
structure ZoneRecommendation where
  zone_id : Int
  area_ha : ℚ
  growth_stage : String
  health_status : String
  nutrient_status : List (Nutrient × String)
  water_stress : ℚ
  temperature_stress : ℚ
  nutrient_stress : ℚ
  actions : List RecommendationAction
  estimated_yield_impact : ℚ
  total_cost : ℚ
deriving DecidableEq

/-- The stress_indicators dict of _calculate_stress_indicators. -/
structure StressIndicators where
  water_stress : ℚ
  temperature_stress : ℚ
  nutrient_stress : ℚ
deriving DecidableEq

/-- _calculate_stress_indicators: water, temperature and nutrient stress,
each clamped from above by 1. -/
def calculateStressIndicators (z : ZoneData) (w : WeatherForecast) : StressIndicators :=
  let soil_moisture := z.soil_moisture.getD 25
  let precipitation := w.precipitation_7day.getD 10
  let water_stress := max 0 ((25 - soil_moisture) / 25) * max 0 ((20 - precipitation) / 20)
  let max_temp := w.max_temperature_7day.getD 25
  let temp_stress := if max_temp > 30 then max 0 ((max_temp - 30) / 10) else 0
  let nitrogen_level := z.nitrogen_level.getD 50
  let nitrogen_threshold := (nutrientThresholds .nitrogen).sufficient
  let nutrient_stress := max 0 ((nitrogen_threshold - nitrogen_level) / nitrogen_threshold)
  { water_stress := min water_stress 1
    temperature_stress := min temp_stress 1
    nutrient_stress := min nutrient_stress 1 }

/-- _assess_zone_health: NDVI/NDRE thresholds, ordered checks. -/
def assessZoneHealth (z : ZoneData) : String :=
  let ndvi := z.ndvi_mean.getD (1/2)
  let ndre := z.ndre_mean.getD (3/10)
  if ndvi > 7/10 ∧ ndre > 4/10 then "excellent"
  else if ndvi > 5/10 ∧ ndre > 3/10 then "good"
  else if ndvi > 3/10 ∧ ndre > 2/10 then "fair"
  else "poor"

/-- The per-nutrient bucket chain inside _assess_nutrient_status; the
level argument is the zone-row lookup, defaulting to 50 when absent. -/
def assessNutrient (n : Nutrient) (level : Option ℚ) : String :=
  let l := level.getD 50
  let t := nutrientThresholds n
  if l < t.severe_deficiency then "severe_deficiency"
  else if l < t.deficiency then "deficiency"
  else if l < t.sufficient then "marginal"
  else if l > t.excess then "excess"
  else "sufficient"

/-- _assess_nutrient_status: the loop over nitrogen, phosphorus, potassium. -/
def assessNutrientStatus (z : ZoneData) : List (Nutrient × String) :=
  [Nutrient.nitrogen, Nutrient.phosphorus, Nutrient.potassium].map
    (fun n => (n, assessNutrient n (z.levelOf n)))

/-- Growth-stage parse with silent fallback to Vegetative_Growth, shared by
the irrigation and fertilizer generators (the try/except ValueError block). -/
def stageOrFallback (growth_stage : String) : GrowthStage :=
  (parseGrowthStage growth_stage).getD .vegetative_growth

/-- _generate_irrigation_recommendations: emits at most one irrigation
action, only when the net requirement exceeds 5 mm. -/
def generateIrrigationRecommendations (z : ZoneData) (growth_stage : String)
    (w : WeatherForecast) (si : StressIndicators) : List RecommendationAction :=
  let stage := stageOrFallback growth_stage
  let base_requirement := waterRequirementMm stage
  let stress_multiplier := 1 + si.water_stress * (3/10)
  let precipitation := w.precipitation_7day.getD 0
  let net_requirement := max 0 (base_requirement * stress_multiplier - precipitation)
  if net_requirement > 5 then
    let priority := if si.water_stress > 7/10 then "high" else "medium"
    let timing := if priority = "high" then "immediate" else "within_week"
    let cost_per_ha := net_requirement * 830
    [{ action_type := .irrigation
       priority := priority
       description := "Apply " ++ toString net_requirement ++
         "mm irrigation based on growth stage requirements and stress indicators"
       timing := timing
       zone_ids := [z.zone_id]
       application_rate := some net_requirement
       application_unit := some "mm"
       estimated_cost := some (cost_per_ha * z.area_ha.getD 1)
       expected_benefit := some ("Reduce water stress, maintain optimal soil moisture for "
         ++ growth_stage ++ " stage") }]
  else []

/-- Body of the per-nutrient loop of _generate_fertilizer_recommendations:
the action emitted for one (nutrient, status) pair, when deficient. -/
def fertilizerActionFor (z : ZoneData) (growth_stage : String)
    (n : Nutrient) (status : String) : List RecommendationAction :=
  let stage := stageOrFallback growth_stage
  let current_level := (z.levelOf n).getD 50
  if status = "severe_deficiency" ∨ status = "deficiency" then
    let target_level := (nutrientThresholds n).sufficient
    let deficit := target_level - current_level
    let application_rate := deficit * conversionFactor n
    let isHigh := status = "severe_deficiency" ∨ nutrientName n ∈ criticalNutrients stage
    let priority := if isHigh then "high" else "medium"
    let timing := if isHigh then "immediate" else "within_week"
    let price_per_kg := fertilizerPrice n
    let total_cost := application_rate * z.area_ha.getD 1 * price_per_kg
    [{ action_type := .fertilization
       priority := priority
       description := "Apply " ++ nutrientName n ++ " fertilizer to address " ++ status ++
         " (current: " ++ toString current_level ++ " ppm, target: " ++
         toString target_level ++ " ppm)"
       timing := timing
       zone_ids := [z.zone_id]
       application_rate := some application_rate
       application_unit := some "kg/ha"
       estimated_cost := some total_cost
       expected_benefit := some ("Increase " ++ nutrientName n ++ " levels to support "
         ++ growth_stage ++ " requirements") }]
  else []

/-- _generate_fertilizer_recommendations: the loop over nutrient_status. -/
def generateFertilizerRecommendations (z : ZoneData) (growth_stage : String)
    (nutrient_status : List (Nutrient × String)) : List RecommendationAction :=
  nutrient_status.foldl (fun acc p => acc ++ fertilizerActionFor z growth_stage p.1 p.2) []

/-- _generate_pest_management_recommendations. -/
def generatePestManagementRecommendations (z : ZoneData) (growth_stage : String)
    (w : WeatherForecast) : List RecommendationAction :=
  let humidity := w.avg_humidity_7day.getD 65
  let temperature := w.avg_temperature_7day.getD 20
  let blight : List RecommendationAction :=
    if humidity > 80 ∧ 15 < temperature ∧ temperature < 25 then
      [{ action_type := .pest_management
         priority := "high"
         description := "High late blight risk detected. Apply preventive fungicide treatment"
         timing := "immediate"
         zone_ids := [z.zone_id]
         application_rate := some (5/2)
         application_unit := some "L/ha"
         estimated_cost := some (45 * z.area_ha.getD 1)
         expected_benefit := some "Prevent late blight infection and potential yield loss" }]
    else []
  let beetle : List RecommendationAction :=
    if (growth_stage = "Emergence" ∨ growth_stage = "Vegetative_Growth") ∧ temperature > 15 then
      [{ action_type := .pest_management
         priority := "medium"
         description := "Monitor for Colorado potato beetle and apply treatment if threshold exceeded"
         timing := "within_week"
         zone_ids := [z.zone_id]
         estimated_cost := some (25 * z.area_ha.getD 1)
         expected_benefit := some "Early detection and control of Colorado potato beetle" }]
    else []
  blight ++ beetle

/-- Substring test on character lists, mirroring the Python `in` operator
on strings (empty needle is contained in everything). -/
def charsContain : List Char → List Char → Bool
  | _, [] => true
  | [], _ :: _ => false
  | h :: t, needle => needle.isPrefixOf (h :: t) || charsContain t needle

/-- Python substring containment `needle in hay` for strings. -/
def strContains (hay needle : String) : Bool :=
  charsContain hay.data needle.data

/-- The per-action increment inside the loop of _estimate_yield_impact. -/
def yieldContribution (a : RecommendationAction) : ℚ :=
  match a.action_type with
  | .irrigation => if a.priority = "high" then 12/100 else 8/100
  | .fertilization =>
      if strContains a.description "severe_deficiency" then 20/100
      else if strContains a.description "deficiency" then 10/100
      else 5/100
  | .pest_management => if a.priority = "high" then 15/100 else 5/100
  | .harvesting => 0

/-- _estimate_yield_impact: additive accumulation, capped at 0.40. -/
def estimateYieldImpact (actions : List RecommendationAction) : ℚ :=
  min (actions.foldl (fun acc a => acc + yieldContribution a) 0) (40/100)

/-- _estimate_roi: zero-cost short circuit, otherwise percentage ROI of
the estimated yield-improvement value, floored at 0. -/
def estimateRoi (zones : List ZoneRecommendation) (total_cost : ℚ) : ℚ :=
  if total_cost = 0 then 0
  else
    let total_area := (zones.map ZoneRecommendation.area_ha).sum
    let avg_yield_impact :=
      (zones.map ZoneRecommendation.estimated_yield_impact).sum / zones.length
    let base_yield_value := total_area * 25 * 300
    let yield_improvement_value := base_yield_value * avg_yield_impact
    let roi := (yield_improvement_value - total_cost) / total_cost * 100
    max roi 0

/-! ## Task manager: src/farmer_tasks/task_manager.py -/

/-- TaskPriority enum. -/
inductive TaskPriority
  | low
  | medium
  | high
  | urgent
deriving DecidableEq

/-- The .value string of a TaskPriority (the TEXT stored in SQLite). -/
def TaskPriority.value : TaskPriority → String
  | .low => "low"
  | .medium => "medium"
  | .high => "high"
  | .urgent => "urgent"

/-- TaskStatus enum. -/
inductive TaskStatus
  | pending
  | in_progress
  | completed
  | overdue
  | cancelled
deriving DecidableEq

/-- TaskCategory enum. -/
inductive TaskCategory
  | irrigation
  | fertilization
  | pest_control
  | harvesting
  | planting
  | monitoring
  | equipment
  | weather_alert
  | market
  | compliance
deriving DecidableEq

/-- The .value string of a TaskCategory. -/
def TaskCategory.value : TaskCategory → String
  | .irrigation => "irrigation"
  | .fertilization => "fertilization"
  | .pest_control => "pest_control"
  | .harvesting => "harvesting"
  | .planting => "planting"
  | .monitoring => "monitoring"
  | .equipment => "equipment"
  | .weather_alert => "weather_alert"
  | .market => "market"
  | .compliance => "compliance"

/-- FarmerTask dataclass / one row of the farmer_tasks table.
Datetimes are integer minutes; identifier generation (uuid4) is treated
as an externally supplied string. -/
structure FarmerTask where
  id : String
  title : String
  description : String
  category : TaskCategory
  priority : TaskPriority
  status : TaskStatus
  field_id : String
  created_at : Int
  due_date : Int
  estimated_duration : Int
  cost_estimate : ℚ
  auto_generated : Bool
  ai_confidence : ℚ
  completion_notes : Option String := none
  completed_at : Option Int := none
  reminder_sent : Bool := false
  zone_id : Option String := none
  area_hectares : Option ℚ := none
  equipment_needed : List String := []
  materials_needed : List String := []
  labor_hours : Option ℚ := none
  weather_dependent : Bool := false
  risk_factors : List String := []
  depends_on : List String := []
  blocks : List String := []
deriving DecidableEq

/-- The task store (farmer_tasks table) as a list of rows. The separate
task_history audit table is written but never read by the embedded
operations, so it is not carried in the state. -/
abbrev TaskStore : Type := List FarmerTask

/-- Insertion step of the sort modelling the SQL ORDER BY clause. -/
def insertByLe (le : FarmerTask → FarmerTask → Bool) (t : FarmerTask) :
    List FarmerTask → List FarmerTask
  | [] => [t]
  | h :: s => if le t h then t :: h :: s else h :: insertByLe le t s

/-- Sort modelling the SQL ORDER BY clause (any order consistent with the
comparator; the claims are insensitive to tie order). -/
def sortByLe (le : FarmerTask → FarmerTask → Bool) : List FarmerTask → List FarmerTask
  | [] => []
  | h :: s => insertByLe le h (sortByLe le s)

/-- ORDER BY due_date ASC, priority DESC — priority is the TEXT value,
so the descending order is lexicographic on the value string. -/
def orderDueThenPriorityDesc (a b : FarmerTask) : Bool :=
  decide (a.due_date < b.due_date) ||
    (decide (a.due_date = b.due_date) && decide (b.priority.value ≤ a.priority.value))

/-- sorted(key=(due_date, priority.value)) of get_upcoming_tasks. -/
def orderDueThenPriorityAsc (a b : FarmerTask) : Bool :=
  decide (a.due_date < b.due_date) ||
    (decide (a.due_date = b.due_date) && decide (a.priority.value ≤ b.priority.value))

/-- The WHERE clause of get_tasks_for_farmer: field membership plus the
optional status/category/priority IN filters. -/
def taskMatchesFilters (field_ids : List String) (statusFilter : Option (List TaskStatus))
    (categoryFilter : Option (List TaskCategory)) (priorityFilter : Option (List TaskPriority))
    (t : FarmerTask) : Bool :=
  decide (t.field_id ∈ field_ids) &&
    (match statusFilter with | none => true | some l => decide (t.status ∈ l)) &&
    (match categoryFilter with | none => true | some l => decide (t.category ∈ l)) &&
    (match priorityFilter with | none => true | some l => decide (t.priority ∈ l))

/-- get_tasks_for_farmer: filtered rows, ordered by due_date ASC then
priority (TEXT) DESC. -/
def getTasksForFarmer (store : TaskStore) (field_ids : List String)
    (statusFilter : Option (List TaskStatus) := none)
    (categoryFilter : Option (List TaskCategory) := none)
    (priorityFilter : Option (List TaskPriority) := none) : List FarmerTask :=
  sortByLe orderDueThenPriorityDesc
    (store.filter (taskMatchesFilters field_ids statusFilter categoryFilter priorityFilter))

/-- The row update performed by update_task_status on a matching row:
status is set unconditionally; completed_at is stamped when the new
status is completed; notes are attached when truthy (Python treats an
empty string as falsy). -/
def applyStatusUpdate (now : Int) (new_status : TaskStatus)
    (completion_notes : Option String) (t : FarmerTask) : FarmerTask :=
  { t with
    status := new_status
    completed_at := if new_status = TaskStatus.completed then some now else t.completed_at
    completion_notes :=
      match completion_notes with
      | some s => if s.isEmpty then t.completion_notes else some s
      | none => t.completion_notes }

/-- update_task_status: UPDATE ... WHERE id = task_id; returns the new
store and the rowcount > 0 success flag. -/
def updateTaskStatus (now : Int) (store : TaskStore) (task_id : String)
    (new_status : TaskStatus) (completion_notes : Option String := none) :
    TaskStore × Bool :=
  (store.map (fun t => if t.id = task_id then
      applyStatusUpdate now new_status completion_notes t else t),
   store.any (fun t => decide (t.id = task_id)))

/-- Body of the per-task loop of get_overdue_tasks: a past-due task has
its stored status updated to overdue and its (mutated) snapshot appended
to the result. -/
def overdueStep (now : Int) (acc : TaskStore × List FarmerTask) (t : FarmerTask) :
    TaskStore × List FarmerTask :=
  if t.due_date < now then
    ((updateTaskStatus now acc.1 t.id TaskStatus.overdue).1,
     acc.2 ++ [{ t with status := TaskStatus.overdue }])
  else acc

/-- get_overdue_tasks: fetch active tasks, and run the per-task loop
over them, threading the store. -/
def getOverdueTasks (now : Int) (store : TaskStore) (field_ids : List String) :
    TaskStore × List FarmerTask :=
  let tasks := getTasksForFarmer store field_ids
    (some [TaskStatus.pending, TaskStatus.in_progress])
  tasks.foldl (overdueStep now) (store, [])

/-- get_upcoming_tasks: fetch active tasks and keep those due within the
cutoff; the store is read but never written (no lazy transition here). -/
def getUpcomingTasks (now : Int) (store : TaskStore) (field_ids : List String)
    (days_ahead : Int := 7) : TaskStore × List FarmerTask :=
  let tasks := getTasksForFarmer store field_ids
    (some [TaskStatus.pending, TaskStatus.in_progress])
  let cutoff := now + days_ahead * 1440
  (store, sortByLe orderDueThenPriorityAsc (tasks.filter (fun t => decide (t.due_date ≤ cutoff))))

/-- The summary dict built by get_task_summary (the per-category
breakdown sub-dict is not consumed by any claim and is omitted). -/
structure TaskSummary where
  total_tasks : Nat
  pending : Nat
  in_progress : Nat
  completed : Nat
  overdue : Nat
  upcoming_3_days : Nat
  urgent_tasks : Nat
  auto_generated : Nat
  total_estimated_cost : ℚ
deriving DecidableEq

/-- get_task_summary: the unfiltered snapshot is taken first, then
get_overdue_tasks runs (mutating the store), then get_upcoming_tasks
reads the mutated store. -/
def getTaskSummary (now : Int) (store : TaskStore) (field_ids : List String) :
    TaskStore × TaskSummary :=
  let all_tasks := getTasksForFarmer store field_ids
  let od := getOverdueTasks now store field_ids
  let upcoming := (getUpcomingTasks now od.1 field_ids 3).2
  (od.1,
   { total_tasks := all_tasks.length
     pending := (all_tasks.filter (fun t => decide (t.status = TaskStatus.pending))).length
     in_progress := (all_tasks.filter (fun t => decide (t.status = TaskStatus.in_progress))).length
     completed := (all_tasks.filter (fun t => decide (t.status = TaskStatus.completed))).length
     overdue := od.2.length
     upcoming_3_days := upcoming.length
     urgent_tasks := (all_tasks.filter (fun t => decide (t.priority = TaskPriority.urgent ∧
       (t.status = TaskStatus.pending ∨ t.status = TaskStatus.in_progress)))).length
     auto_generated := (all_tasks.filter (fun t => t.auto_generated)).length
     total_estimated_cost :=
       ((all_tasks.filter (fun t => decide (t.status ≠ TaskStatus.completed))).map
         FarmerTask.cost_estimate).sum })

/-! ## Conversion of recommendation actions to tasks
(_create_task_from_action and helpers of task_manager.py) -/

/-- The action dict consumed by _create_task_from_action (keys read with
.get and a default). -/
structure ActionDict where
  action_type : Option String := none
  priority : Option String := none
  description : Option String := none
  timing : Option String := none
  cost : Option ℚ := none
  rate : Option String := none
deriving DecidableEq

/-- category_mapping.get(action type, MONITORING) of _create_task_from_action. -/
def categoryMapping (s : String) : TaskCategory :=
  if s = "irrigation" then .irrigation
  else if s = "fertilization" then .fertilization
  else if s = "pest_control" then .pest_control
  else if s = "monitoring" then .monitoring
  else .monitoring

/-- priority_mapping.get(action priority, MEDIUM) of _create_task_from_action. -/
def priorityMapping (s : String) : TaskPriority :=
  if s = "low" then .low
  else if s = "medium" then .medium
  else if s = "high" then .high
  else if s = "urgent" then .urgent
  else .medium

/-- timing_days.get(action timing, 3) of _create_task_from_action. -/
def timingDays (s : String) : Int :=
  if s = "immediate" then 1
  else if s = "within_week" then 3
  else if s = "within_month" then 14
  else 3

/-- _extract_equipment_from_action. -/
def extractEquipmentFromAction (a : ActionDict) : List String :=
  let action_type := a.action_type.getD ""
  if action_type = "irrigation" then ["irrigation_system", "water_pump"]
  else if action_type = "fertilization" then ["spreader", "tractor"]
  else if action_type = "pest_control" then ["sprayer", "protective_equipment"]
  else []

/-- _extract_materials_from_action. -/
def extractMaterialsFromAction (a : ActionDict) : List String :=
  let action_type := a.action_type.getD ""
  let rate := a.rate.getD ""
  (if strContains action_type "fertilizer" || strContains rate.toLower "nitrogen" then
    ["nitrogen_fertilizer"] else []) ++
  (if strContains action_type "pesticide" || strContains rate.toLower "spray" then
    ["pesticide"] else [])

/-- _create_task_from_action: builds the FarmerTask for one action of
one zone of the AI recommendations (task id left to the caller, as
uuid4 generation is environmental). -/
def createTaskFromAction (now : Int) (task_id field_id zone_id : String)
    (zone_area_ha : Option ℚ) (a : ActionDict) : FarmerTask :=
  let days_ahead := timingDays (a.timing.getD "within_week")
  { id := task_id
    title := "🤖 " ++ a.description.getD "AI Recommendation"
    description := "AI-generated task for Zone " ++ zone_id ++ ": " ++ a.description.getD ""
    category := categoryMapping (a.action_type.getD "monitoring")
    priority := priorityMapping (a.priority.getD "medium")
    status := TaskStatus.pending
    field_id := field_id
    created_at := now
    due_date := now + days_ahead * 1440
    estimated_duration := 90
    cost_estimate := a.cost.getD 0
    auto_generated := true
    ai_confidence := 88/100
    zone_id := some zone_id
    area_hectares := some (zone_area_ha.getD 0)
    equipment_needed := extractEquipmentFromAction a
    materials_needed := extractMaterialsFromAction a }

/-- The weather forecast dict consumed by generate_weather_alerts. -/
structure WeatherAlertForecast where
  wind_speed : Option ℚ := none
  min_temperature : Option ℚ := none
  precipitation : Option ℚ := none
deriving DecidableEq

/-- generate_weather_alerts: each of the three threshold checks fires
independently; each created task keeps the documented priority, due
offset and cost (task ids are supplied, standing in for uuid4). -/
def generateWeatherAlerts (now : Int) (field_id : String)
    (idWind idFrost idRain : String) (w : WeatherAlertForecast) : List FarmerTask :=
  (if w.wind_speed.getD 0 > 40 then
    [{ id := idWind
       title := "🌪️ High Wind Alert"
       description := "High winds expected (" ++ toString (w.wind_speed.getD 0) ++
         " km/h). Secure equipment and check irrigation systems."
       category := TaskCategory.weather_alert
       priority := TaskPriority.high
       status := TaskStatus.pending
       field_id := field_id
       created_at := now
       due_date := now + 6 * 60
       estimated_duration := 30
       cost_estimate := 0
       auto_generated := true
       ai_confidence := 95/100
       weather_dependent := true
       risk_factors := ["equipment_damage", "irrigation_disruption"] }]
  else []) ++
  (if w.min_temperature.getD 10 < 2 then
    [{ id := idFrost
       title := "🧊 Frost Warning"
       description := "Frost risk with temperature dropping to " ++
         toString (w.min_temperature.getD 10) ++ "°C. Protect vulnerable crops."
       category := TaskCategory.weather_alert
       priority := TaskPriority.urgent
       status := TaskStatus.pending
       field_id := field_id
       created_at := now
       due_date := now + 12 * 60
       estimated_duration := 60
       cost_estimate := 500
       auto_generated := true
       ai_confidence := 98/100
       weather_dependent := true
       equipment_needed := ["frost_protection_covers", "irrigation_system"]
       risk_factors := ["crop_damage", "yield_loss"] }]
  else []) ++
  (if w.precipitation.getD 0 > 50 then
    [{ id := idRain
       title := "🌧️ Heavy Rain Alert"
       description := "Heavy rainfall expected (" ++ toString (w.precipitation.getD 0) ++
         "mm). Check drainage and postpone field operations."
       category := TaskCategory.weather_alert
       priority := TaskPriority.medium
       status := TaskStatus.pending
       field_id := field_id
       created_at := now
       due_date := now + 8 * 60
       estimated_duration := 45
       cost_estimate := 0
       auto_generated := true
       ai_confidence := 90/100
       weather_dependent := true
       risk_factors := ["waterlogging", "soil_compaction"] }]
  else [])

/-! ## Alert system: src/farmer_tasks/alert_system.py -/

/-- The alert_type strings written to the sent_alerts table
(reminder carries the hours-before offset N of reminder_Nh). -/
inductive AlertKind
  | overdue
  | urgent
  | reminder (hours_before : Nat)
  | weather_suitable
  | weather_warning
deriving DecidableEq

/-- One row of the sent_alerts table (recipient and sent_at timestamp
carry no decision weight and are dropped; every insert has status sent). -/
abbrev SentLog : Type := List (String × AlertKind)

/-- _alert_sent: COUNT(*) > 0 over sent_alerts for (task_id, alert_type). -/
def alertSent (log : SentLog) (task_id : String) (k : AlertKind) : Bool :=
  log.any (fun r => decide (r.1 = task_id ∧ r.2 = k))

/-- The weather snapshot dict hard-coded inside _check_weather_alerts. -/
structure WeatherSnapshot where
  temperature : ℚ
  humidity : ℚ
  wind_speed : ℚ
  precipitation_probability : ℚ
deriving DecidableEq

/-- The simulated_weather dict of _check_weather_alerts. -/
def simulatedWeather : WeatherSnapshot :=
  { temperature := 25, humidity := 70, wind_speed := 15, precipitation_probability := 20 }

/-- _is_weather_suitable: suitable_conditions.get(category value, True). -/
def isWeatherSuitable (c : TaskCategory) (w : WeatherSnapshot) : Bool :=
  match c with
  | .irrigation => decide (w.precipitation_probability < 30)
  | .fertilization => decide (w.wind_speed < 20 ∧ w.precipitation_probability < 20)
  | .pest_control => decide (w.wind_speed < 15 ∧ w.precipitation_probability < 10)
  | .harvesting => decide (w.precipitation_probability < 10)
  | _ => true

/-- _is_weather_unsuitable: unsuitable_conditions.get(category value, False). -/
def isWeatherUnsuitable (c : TaskCategory) (w : WeatherSnapshot) : Bool :=
  match c with
  | .irrigation => decide (w.precipitation_probability > 70)
  | .fertilization => decide (w.wind_speed > 30 ∨ w.precipitation_probability > 60)
  | .pest_control => decide (w.wind_speed > 25 ∨ w.precipitation_probability > 50)
  | .harvesting => decide (w.precipitation_probability > 40)
  | _ => false

/-- Step of the reminder loop of _check_reminder_alerts for one
configured hours-before offset: dispatch when now lies in the 30-minute
window after the trigger time and no such reminder is logged yet;
_send_reminder_alert logs the record immediately. -/
def reminderStep (now : Int) (t : FarmerTask) (acc : SentLog × SentLog) (hours_before : Nat) :
    SentLog × SentLog :=
  let reminder_time := t.due_date - hours_before * 60
  if now ≥ reminder_time ∧ now < reminder_time + 30 ∧
      ¬ alertSent acc.1 t.id (.reminder hours_before) then
    (acc.1 ++ [(t.id, .reminder hours_before)], acc.2 ++ [(t.id, .reminder hours_before)])
  else acc

/-- _check_reminder_alerts: fold of the reminder loop over the configured
reminder_hours_before list, returning (log, dispatched records). -/
def checkReminderAlerts (cfg : List Nat) (now : Int) (t : FarmerTask) (log : SentLog) :
    SentLog × SentLog :=
  cfg.foldl (reminderStep now t) (log, [])

/-- _check_weather_alerts: the weather_suitable gate guards both the
suitable and the warning branch; the evaluated snapshot is the
hard-coded simulated weather. -/
def checkWeatherAlerts (t : FarmerTask) (log : SentLog) : SentLog × SentLog :=
  if t.weather_dependent ∧ ¬ alertSent log t.id .weather_suitable then
    if isWeatherSuitable t.category simulatedWeather then
      (log ++ [(t.id, .weather_suitable)], [(t.id, .weather_suitable)])
    else if isWeatherUnsuitable t.category simulatedWeather then
      (log ++ [(t.id, .weather_warning)], [(t.id, .weather_warning)])
    else (log, [])
  else (log, [])

/-- The overdue / urgent / reminder elif chain of the per-task loop of
check_and_send_alerts: the overdue alert is fired for every fetched
past-due task (no sent-log query), the urgent and reminder alerts are
gated on the log. Every dispatch immediately appends its record to the
sent_alerts log. -/
def triageAlerts (cfg : List Nat) (now : Int) (log : SentLog) (t : FarmerTask) :
    SentLog × SentLog :=
  if t.due_date < now ∧ t.status ≠ TaskStatus.overdue then
    (log ++ [(t.id, .overdue)], [(t.id, .overdue)])
  else if t.priority = TaskPriority.urgent ∧ ¬ alertSent log t.id .urgent then
    (log ++ [(t.id, .urgent)], [(t.id, .urgent)])
  else checkReminderAlerts cfg now t log

/-- The per-task body of the loop inside check_and_send_alerts: the
overdue / urgent / reminder elif chain, then the independent
weather-dependent check. -/
def processTaskAlerts (cfg : List Nat) (now : Int) (log : SentLog) (t : FarmerTask) :
    SentLog × SentLog :=
  let step1 : SentLog × SentLog := triageAlerts cfg now log t
  let step2 : SentLog × SentLog :=
    if t.weather_dependent then checkWeatherAlerts t step1.1 else (step1.1, [])
  (step2.1, step1.2 ++ step2.2)

/-- check_and_send_alerts: fetch the active tasks of the field set and
run the per-task alert checks in order, threading the sent-alerts log;
the task store itself is never mutated by the scan. Returns the new log
and the list of dispatched (task id, alert kind) records. -/
def checkAndSendAlerts (cfg : List Nat) (now : Int) (store : TaskStore)
    (field_ids : List String) (log : SentLog) : SentLog × SentLog :=
  let tasks := getTasksForFarmer store field_ids
    (some [TaskStatus.pending, TaskStatus.in_progress])
  tasks.foldl
    (fun acc t =>
      ((processTaskAlerts cfg now acc.1 t).1, acc.2 ++ (processTaskAlerts cfg now acc.1 t).2))
    (log, [])

/-- A sequence of alert-scan calls over the same task set, at the given
clock times, threading the sent-alerts log and concatenating the
dispatched records. -/
def scanSequence (cfg : List Nat) (times : List Int) (store : TaskStore)
    (field_ids : List String) (log : SentLog) : SentLog × SentLog :=
  times.foldl
    (fun acc now =>
      ((checkAndSendAlerts cfg now store field_ids acc.1).1,
       acc.2 ++ (checkAndSendAlerts cfg now store field_ids acc.1).2))
    (log, [])

/-! ## Claim-side definitions (written from the words of the spec, for
refinement comparisons against the embedded code) -/

/-- Spec wording of the timing-to-days mapping of claim C5: immediate 1,
within_week 3, within_month 14, any unrecognized timing 3. -/
def specTimingDays : Option String → Int
  | none => 3
  | some s =>
      if s = "immediate" then 1
      else if s = "within_week" then 3
      else if s = "within_month" then 14
      else 3

/-- Spec wording of the action-type-to-category mapping of claim C5:
the four listed types map to themselves, every unknown type to monitoring. -/
def specCategoryOf : Option String → TaskCategory
  | none => .monitoring
  | some s =>
      if s = "irrigation" then .irrigation
      else if s = "fertilization" then .fertilization
      else if s = "pest_control" then .pest_control
      else if s = "monitoring" then .monitoring
      else .monitoring

/-- Spec wording of the per-action yield contribution of claim C7:
0.12/0.08 for high/other irrigation, 0.20/0.10/0.05 for fertilization by
description keyword, 0.15/0.05 for high/other pest management. -/
def specYieldContribution (a : RecommendationAction) : ℚ :=
  match a.action_type with
  | .irrigation => if a.priority = "high" then 12/100 else 8/100
  | .fertilization =>
      if strContains a.description "severe_deficiency" then 20/100
      else if strContains a.description "deficiency" then 10/100
      else 5/100
  | .pest_management => if a.priority = "high" then 15/100 else 5/100
  | .harvesting => 0

/-- Rank of a nutrient status in the bucket order of claim C8 (used to
state monotonicity of the classification). -/
def statusRank (s : String) : Nat :=
  if s = "severe_deficiency" then 0
  else if s = "deficiency" then 1
  else if s = "marginal" then 2
  else if s = "sufficient" then 3
  else if s = "excess" then 4
  else 5

/-! ## Helper definitions for stating the claims -/

/-- Status column of the rows of the store carrying the given task id. -/
def statusesOf (store : TaskStore) (tid : String) : List TaskStatus :=
  (store.filter (fun t => decide (t.id = tid))).map FarmerTask.status

/-- 1 when the record is absent from the sent-alerts log, else 0: the
budget that a gated alert dispatch consumes. -/
def absentWeight (p : String × AlertKind) (log : SentLog) : Nat :=
  if p ∈ log then 0 else 1

/-- Number of dispatches of one (task id, alert kind) record in a
dispatch list. -/
def countRec (p : String × AlertKind) (l : SentLog) : Nat :=
  l.countP (fun r => decide (r = p))

/-! ## Concrete inputs used by counterexamples and witnesses -/

/-- A minimal task row: pending, medium priority, due at time 0. -/
def baseTask : FarmerTask :=
  { id := "t1"
    title := "Check field"
    description := ""
    category := TaskCategory.monitoring
    priority := TaskPriority.medium
    status := TaskStatus.pending
    field_id := "f1"
    created_at := 0
    due_date := 0
    estimated_duration := 30
    cost_estimate := 0
    auto_generated := false
    ai_confidence := 1/2 }

/-- Store holding one completed task (input of the C2 counterexample). -/
def completedStore : TaskStore :=
  [{ baseTask with status := TaskStatus.completed, completed_at := some 0 }]

/-- Store holding one pending task past due (C1/C3 inputs). -/
def pendingPastDueStore : TaskStore := [baseTask]

/-- The zone of the C4 test vector: Vegetative_Growth, soil_moisture 10. -/
def c4Zone : ZoneData :=
  { zone_id := 1, growth_stage := some "Vegetative_Growth", soil_moisture := some 10 }

/-- The forecast of the C4 test vector: precip_7day 0. -/
def c4Forecast : WeatherForecast := { precipitation_7day := some 0 }

/-- A one-zone recommendation list used by the C6 witness. -/
def c6Zone : ZoneRecommendation :=
  { zone_id := 1
    area_ha := 2
    growth_stage := "Vegetative_Growth"
    health_status := "good"
    nutrient_status := []
    water_stress := 0
    temperature_stress := 0
    nutrient_stress := 0
    actions := []
    estimated_yield_impact := 1/10
    total_cost := 100 }

/-! ## General lemmas about the embedded operations -/

theorem foldl_add_map (f : RecommendationAction → ℚ) (l : List RecommendationAction) (c : ℚ) :
    l.foldl (fun acc a => acc + f a) c = c + (l.map f).sum := by
  induction l generalizing c with
  | nil => simp
  | cons h t ih => simp [ih, add_assoc]

theorem yieldContribution_nonneg (a : RecommendationAction) : 0 ≤ yieldContribution a := by
  unfold yieldContribution
  cases a.action_type <;> split_ifs <;> norm_num

/-! ## Claims -/

/-- C4 counterexample: with growth_stage Vegetative_Growth, soil_moisture
10 and precip_7day 0, the code computes water_stress = 0.6 (not 1.0, as
0.6 does not exceed the 0.7 threshold) and emits one irrigation action
with priority medium and net requirement 41.3 mm (not high / 45.5). -/
theorem claim_C4_counterexample :
    (calculateStressIndicators c4Zone c4Forecast).water_stress = 3/5 ∧
    ((3 : ℚ)/5 ≠ 1) ∧ ¬ ((3 : ℚ)/5 > 7/10) ∧
    (generateIrrigationRecommendations c4Zone "Vegetative_Growth" c4Forecast
        (calculateStressIndicators c4Zone c4Forecast)).map
      (fun a => (a.priority, a.application_rate)) = [("medium", some (413/10))] ∧
    ("medium" ≠ "high") ∧ ((413 : ℚ)/10 ≠ 91/2) := by
  have hw : (calculateStressIndicators c4Zone c4Forecast).water_stress = 3/5 := by
    unfold calculateStressIndicators c4Zone c4Forecast
    norm_num
  refine ⟨hw, by norm_num, by norm_num, ?_, by decide, by norm_num⟩
  simp only [generateIrrigationRecommendations]
  rw [hw, show waterRequirementMm (stageOrFallback "Vegetative_Growth") = 35 from rfl]
  norm_num [c4Forecast, c4Zone]

/-- C4 (amended): for the zone with growth_stage Vegetative_Growth,
soil_moisture 10 and a forecast with precip_7day 0, the irrigation
generator computes water_stress = 0.6, which does not exceed the 0.7
high-priority threshold, and emits exactly one irrigation action with
priority medium, timing within_week and net_requirement_mm equal to
base(35) * (1 + 0.6 * 0.3) - 0 = 41.3. -/
theorem claim_C4 :
    (calculateStressIndicators c4Zone c4Forecast).water_stress = 3/5 ∧
    ¬ ((calculateStressIndicators c4Zone c4Forecast).water_stress > 7/10) ∧
    (generateIrrigationRecommendations c4Zone "Vegetative_Growth" c4Forecast
        (calculateStressIndicators c4Zone c4Forecast)).map
      (fun a => (a.priority, a.timing, a.application_rate)) =
      [("medium", "within_week", some (35 * (1 + (3/5) * (3/10)) - 0))] := by
  have hw : (calculateStressIndicators c4Zone c4Forecast).water_stress = 3/5 := by
    unfold calculateStressIndicators c4Zone c4Forecast
    norm_num
  refine ⟨hw, by rw [hw]; norm_num, ?_⟩
  simp only [generateIrrigationRecommendations]
  rw [hw, show waterRequirementMm (stageOrFallback "Vegetative_Growth") = 35 from rfl]
  norm_num [c4Forecast, c4Zone]
  decide

/-- C5: every task created from a recommendation action has its due date
offset from creation time by the timing mapping of the spec (immediate 1
day, within_week 3, within_month 14, unrecognized 3), and its category
given by the action-type mapping of the spec (the four known types map
to themselves, unknown types to monitoring). -/
theorem claim_C5 (now : Int) (task_id field_id zone_id : String)
    (zone_area_ha : Option ℚ) (a : ActionDict) :
    (createTaskFromAction now task_id field_id zone_id zone_area_ha a).due_date =
      now + specTimingDays a.timing * 1440 ∧
    (createTaskFromAction now task_id field_id zone_id zone_area_ha a).category =
      specCategoryOf a.action_type := by
  obtain ⟨ty, pr, de, ti, co, ra⟩ := a
  exact ⟨by cases ti <;> rfl, by cases ty <;> rfl⟩

/-- C7: for every list of recommendation actions, the estimated yield
impact equals the additive sum of the per-action contributions of the
spec capped at 0.40, and therefore always lies in [0, 0.40]. -/
theorem claim_C7 (actions : List RecommendationAction) :
    estimateYieldImpact actions = min ((actions.map specYieldContribution).sum) (40/100) ∧
    0 ≤ estimateYieldImpact actions ∧ estimateYieldImpact actions ≤ 40/100 := by
  have hspec : (fun a => specYieldContribution a) = yieldContribution := rfl
  have hsum : estimateYieldImpact actions =
      min ((actions.map yieldContribution).sum) (40/100) := by
    unfold estimateYieldImpact
    rw [foldl_add_map, zero_add]
  refine ⟨by rw [hsum]; rfl, ?_, ?_⟩
  · rw [hsum]
    refine le_min ?_ (by norm_num)
    exact List.sum_nonneg (by
      intro x hx
      obtain ⟨a, _, rfl⟩ := List.mem_map.mp hx
      exact yieldContribution_nonneg a)
  · rw [hsum]
    exact min_le_right _ _

/-- C9: weather-alert task generation fires its three checks
independently, producing tasks with the documented priorities, due
offsets and costs; on the forecast (wind 45, min temperature 1,
precipitation 60) exactly the three alert tasks are created. -/
theorem claim_C9 :
    (∀ (now : Int) (fid iw ifr ir : String) (w : WeatherAlertForecast),
      (generateWeatherAlerts now fid iw ifr ir w).map
          (fun t => (t.priority, t.due_date, t.cost_estimate, t.category)) =
        (if w.wind_speed.getD 0 > 40 then
          [(TaskPriority.high, now + 6 * 60, (0 : ℚ), TaskCategory.weather_alert)] else []) ++
        (if w.min_temperature.getD 10 < 2 then
          [(TaskPriority.urgent, now + 12 * 60, (500 : ℚ), TaskCategory.weather_alert)] else []) ++
        (if w.precipitation.getD 0 > 50 then
          [(TaskPriority.medium, now + 8 * 60, (0 : ℚ), TaskCategory.weather_alert)] else [])) ∧
    ((generateWeatherAlerts 0 "f1" "w1" "w2" "w3"
        { wind_speed := some 45, min_temperature := some 1, precipitation := some 60 }).map
      (fun t => (t.priority, t.due_date, t.cost_estimate, t.category)) =
      [(TaskPriority.high, 360, 0, TaskCategory.weather_alert),
       (TaskPriority.urgent, 720, 500, TaskCategory.weather_alert),
       (TaskPriority.medium, 480, 0, TaskCategory.weather_alert)]) := by
  constructor
  · intro now fid iw ifr ir w
    unfold generateWeatherAlerts
    split_ifs <;> rfl
  · decide

/-- C8: for each of nitrogen, phosphorus and potassium, the nutrient
assessment assigns exactly one of the five statuses, follows the ordered
half-open buckets over the static thresholds, treats an absent level as
50, and is monotone in the level under the bucket order. -/
theorem claim_C8 (n : Nutrient)
    (hn : n = Nutrient.nitrogen ∨ n = Nutrient.phosphorus ∨ n = Nutrient.potassium)
    (l1 l2 : ℚ) (h : l1 ≤ l2) :
    assessNutrient n (some l1) ∈
      ["severe_deficiency", "deficiency", "marginal", "sufficient", "excess"] ∧
    statusRank (assessNutrient n (some l1)) ≤ statusRank (assessNutrient n (some l2)) ∧
    (l1 < (nutrientThresholds n).severe_deficiency →
      assessNutrient n (some l1) = "severe_deficiency") ∧
    ((nutrientThresholds n).severe_deficiency ≤ l1 → l1 < (nutrientThresholds n).deficiency →
      assessNutrient n (some l1) = "deficiency") ∧
    ((nutrientThresholds n).deficiency ≤ l1 → l1 < (nutrientThresholds n).sufficient →
      assessNutrient n (some l1) = "marginal") ∧
    ((nutrientThresholds n).sufficient ≤ l1 → (nutrientThresholds n).excess < l1 →
      assessNutrient n (some l1) = "excess") ∧
    ((nutrientThresholds n).sufficient ≤ l1 → l1 ≤ (nutrientThresholds n).excess →
      assessNutrient n (some l1) = "sufficient") ∧
    assessNutrient n none = assessNutrient n (some 50) := by
  have o1 : (nutrientThresholds n).severe_deficiency ≤ (nutrientThresholds n).deficiency := by
    rcases hn with rfl | rfl | rfl <;> norm_num [nutrientThresholds]
  have o2 : (nutrientThresholds n).deficiency ≤ (nutrientThresholds n).sufficient := by
    rcases hn with rfl | rfl | rfl <;> norm_num [nutrientThresholds]
  have o3 : (nutrientThresholds n).sufficient ≤ (nutrientThresholds n).excess := by
    rcases hn with rfl | rfl | rfl <;> norm_num [nutrientThresholds]
  refine ⟨?_, ?_, ?_, ?_, ?_, ?_, ?_, rfl⟩
  · simp only [assessNutrient, Option.getD_some]
    split_ifs <;> simp
  · simp only [assessNutrient, Option.getD_some]
    split_ifs <;> first | decide | linarith
  · intro h1
    simp only [assessNutrient, Option.getD_some]
    split_ifs <;> first | rfl | linarith
  · intro h1 h2
    simp only [assessNutrient, Option.getD_some]
    split_ifs <;> first | rfl | linarith
  · intro h1 h2
    simp only [assessNutrient, Option.getD_some]
    split_ifs <;> first | rfl | linarith
  · intro h1 h2
    simp only [assessNutrient, Option.getD_some]
    split_ifs <;> first | rfl | linarith
  · intro h1 h2
    simp only [assessNutrient, Option.getD_some]
    split_ifs <;> first | rfl | linarith

/-- C8 witness: the nitrogen classification at levels 20 and 40 is
monotone (severe_deficiency then marginal). -/
theorem claim_C8_witness :
    statusRank (assessNutrient Nutrient.nitrogen (some 20)) ≤
      statusRank (assessNutrient Nutrient.nitrogen (some 40)) :=
  (claim_C8 Nutrient.nitrogen (Or.inl rfl) 20 40 (by norm_num)).2.1

/-- C6: for a non-empty zone list and positive total cost, the expected
ROI equals the spec formula floored at 0 (hence is nonnegative), and a
zero total cost short-circuits to ROI 0. -/
theorem claim_C6 (zones : List ZoneRecommendation) (total_cost : ℚ)
    (hz : zones ≠ []) (hc : 0 < total_cost) :
    estimateRoi zones total_cost =
      max 0 (((zones.map ZoneRecommendation.area_ha).sum * 25 * 300 *
          ((zones.map ZoneRecommendation.estimated_yield_impact).sum / zones.length) -
        total_cost) / total_cost * 100) ∧
    0 ≤ estimateRoi zones total_cost ∧
    (∀ zs : List ZoneRecommendation, estimateRoi zs 0 = 0) := by
  have h0 : total_cost ≠ 0 := ne_of_gt hc
  refine ⟨?_, ?_, ?_⟩
  · simp only [estimateRoi, if_neg h0]
    rw [max_comm]
  · simp only [estimateRoi, if_neg h0]
    exact le_max_right _ _
  · intro zs
    simp [estimateRoi]

/-- C6 witness: one zone of 2 ha with yield impact 0.1 and total cost
100 yields ROI 1400, a nonnegative value. -/
theorem claim_C6_witness :
    estimateRoi [c6Zone] 100 = 1400 ∧ (0 : ℚ) ≤ estimateRoi [c6Zone] 100 := by
  have h := claim_C6 [c6Zone] 100 (by simp) (by norm_num)
  refine ⟨?_, h.2.1⟩
  rw [h.1]
  norm_num [c6Zone]

/-! ## Lemmas about the task-store operations -/

theorem countP_insertByLe (le : FarmerTask → FarmerTask → Bool) (t : FarmerTask)
    (l : List FarmerTask) (p : FarmerTask → Bool) :
    (insertByLe le t l).countP p = ((t :: l).countP p) := by
  induction l with
  | nil => rfl
  | cons h s ih =>
    simp only [insertByLe]
    split_ifs with hle
    · rfl
    · simp only [List.countP_cons, ih]
      omega

theorem countP_sortByLe (le : FarmerTask → FarmerTask → Bool) (l : List FarmerTask)
    (p : FarmerTask → Bool) : (sortByLe le l).countP p = l.countP p := by
  induction l with
  | nil => rfl
  | cons h s ih =>
    simp only [sortByLe]
    rw [countP_insertByLe]
    simp only [List.countP_cons, ih]

theorem mem_insertByLe {le : FarmerTask → FarmerTask → Bool} {t a : FarmerTask}
    {l : List FarmerTask} : a ∈ insertByLe le t l ↔ a = t ∨ a ∈ l := by
  induction l with
  | nil => simp [insertByLe]
  | cons h s ih =>
    simp only [insertByLe]
    split_ifs with hle
    · simp [or_comm, or_assoc, or_left_comm]
    · simp [ih]
      tauto

theorem mem_sortByLe {le : FarmerTask → FarmerTask → Bool} {a : FarmerTask}
    {l : List FarmerTask} : a ∈ sortByLe le l ↔ a ∈ l := by
  induction l with
  | nil => simp [sortByLe]
  | cons h s ih =>
    simp only [sortByLe]
    rw [mem_insertByLe]
    simp [ih]

theorem statusesOf_cons (x : FarmerTask) (l : TaskStore) (tid : String) :
    statusesOf (x :: l) tid =
      if x.id = tid then x.status :: statusesOf l tid else statusesOf l tid := by
  by_cases hx : x.id = tid
  · simp [statusesOf, List.filter_cons, hx]
  · simp [statusesOf, List.filter_cons, hx]

theorem updateTaskStatus_fst_cons (now : Int) (h : FarmerTask) (t : TaskStore)
    (tid : String) (k : TaskStatus) (notes : Option String) :
    (updateTaskStatus now (h :: t) tid k notes).1 =
      (if h.id = tid then applyStatusUpdate now k notes h else h) ::
        (updateTaskStatus now t tid k notes).1 := rfl

theorem statusesOf_updateTaskStatus_self (now : Int) (s : TaskStore) (tid : String)
    (k : TaskStatus) (notes : Option String) :
    statusesOf (updateTaskStatus now s tid k notes).1 tid =
      List.replicate (s.countP (fun t => decide (t.id = tid))) k := by
  induction s with
  | nil => rfl
  | cons h t ih =>
    rw [updateTaskStatus_fst_cons]
    by_cases h1 : h.id = tid
    · rw [if_pos h1, statusesOf_cons]
      have hid : (applyStatusUpdate now k notes h).id = h.id := rfl
      have hst : (applyStatusUpdate now k notes h).status = k := rfl
      rw [if_pos (hid.trans h1), hst, ih]
      simp [List.countP_cons, h1, List.replicate_succ]
    · rw [if_neg h1, statusesOf_cons, if_neg h1, ih]
      simp [List.countP_cons, h1]

theorem statusesOf_updateTaskStatus_other (now : Int) (s : TaskStore) (tid tid2 : String)
    (hne : tid2 ≠ tid) (k : TaskStatus) (notes : Option String) :
    statusesOf (updateTaskStatus now s tid2 k notes).1 tid = statusesOf s tid := by
  induction s with
  | nil => rfl
  | cons h t ih =>
    rw [updateTaskStatus_fst_cons]
    by_cases h1 : h.id = tid2
    · rw [if_pos h1, statusesOf_cons, statusesOf_cons]
      have hid : (applyStatusUpdate now k notes h).id = h.id := rfl
      rw [hid]
      by_cases h2 : h.id = tid
      · exact absurd (h1.symm.trans h2) hne
      · rw [if_neg h2, if_neg h2, ih]
    · rw [if_neg h1, statusesOf_cons, statusesOf_cons]
      by_cases h2 : h.id = tid
      · rw [if_pos h2, if_pos h2, ih]
      · rw [if_neg h2, if_neg h2, ih]

theorem countP_updateTaskStatus (now : Int) (s : TaskStore) (tid2 : String)
    (k : TaskStatus) (notes : Option String) (tid : String) :
    (updateTaskStatus now s tid2 k notes).1.countP (fun t => decide (t.id = tid)) =
      s.countP (fun t => decide (t.id = tid)) := by
  induction s with
  | nil => rfl
  | cons h t ih =>
    rw [updateTaskStatus_fst_cons, List.countP_cons, List.countP_cons]
    by_cases h1 : h.id = tid2
    · have hid : (applyStatusUpdate now k notes h).id = h.id := rfl
      rw [if_pos h1, hid, ih]
    · rw [if_neg h1, ih]

/-- C2 counterexample: a stored task in the terminal status completed is
moved back to pending by update_task_status, so the writer does not
enforce the state machine. -/
theorem claim_C2_counterexample :
    statusesOf completedStore "t1" = [TaskStatus.completed] ∧
    statusesOf (updateTaskStatus 5 completedStore "t1" TaskStatus.pending none).1 "t1" =
      [TaskStatus.pending] ∧
    (updateTaskStatus 5 completedStore "t1" TaskStatus.pending none).2 = true ∧
    TaskStatus.pending ≠ TaskStatus.completed := by
  refine ⟨rfl, rfl, rfl, by decide⟩

/-- C2 (amended): update_task_status performs any requested status
change unconditionally — every row with a matching id gets exactly the
requested status, whatever its current status (including the terminal
completed and cancelled), and the success flag only reports that some
row matched. No state machine is enforced by the writer. -/
theorem claim_C2 (now : Int) (store : TaskStore) (task_id : String)
    (new_status : TaskStatus) (notes : Option String) :
    (updateTaskStatus now store task_id new_status notes).1.map FarmerTask.status =
      store.map (fun t => if t.id = task_id then new_status else t.status) ∧
    (updateTaskStatus now store task_id new_status notes).2 =
      store.any (fun t => decide (t.id = task_id)) := by
  refine ⟨?_, rfl⟩
  induction store with
  | nil => rfl
  | cons h t ih =>
    rw [updateTaskStatus_fst_cons, List.map_cons, List.map_cons]
    by_cases h1 : h.id = task_id
    · rw [if_pos h1, if_pos h1, ih]
      rfl
    · rw [if_neg h1, if_neg h1, ih]

theorem overdueFold_of_no_match (now : Int) (tid : String) (l : List FarmerTask) :
    ∀ (s : TaskStore) (out : List FarmerTask), (∀ e ∈ l, e.id ≠ tid) →
    statusesOf (l.foldl (overdueStep now) (s, out)).1 tid = statusesOf s tid ∧
    (l.foldl (overdueStep now) (s, out)).2.countP (fun u => decide (u.id = tid)) =
      out.countP (fun u => decide (u.id = tid)) ∧
    (l.foldl (overdueStep now) (s, out)).2.countP
        (fun u => decide (u.id = tid ∧ u.status = TaskStatus.overdue)) =
      out.countP (fun u => decide (u.id = tid ∧ u.status = TaskStatus.overdue)) := by
  induction l with
  | nil => intro s out _; exact ⟨rfl, rfl, rfl⟩
  | cons e l ih =>
    intro s out hl
    have he : e.id ≠ tid := hl e (List.mem_cons_self e l)
    have hl2 : ∀ x ∈ l, x.id ≠ tid := fun x hx => hl x (List.mem_cons_of_mem e hx)
    rw [List.foldl_cons]
    by_cases hd : e.due_date < now
    · have hstep : overdueStep now (s, out) e =
          ((updateTaskStatus now s e.id TaskStatus.overdue).1,
           out ++ [{ e with status := TaskStatus.overdue }]) := by
        simp [overdueStep, hd]
      rw [hstep]
      obtain ⟨ih1, ih2, ih3⟩ := ih (updateTaskStatus now s e.id TaskStatus.overdue).1
        (out ++ [{ e with status := TaskStatus.overdue }]) hl2
      refine ⟨?_, ?_, ?_⟩
      · rw [ih1, statusesOf_updateTaskStatus_other now s tid e.id he]
      · rw [ih2, List.countP_append]
        simp [he]
      · rw [ih3, List.countP_append]
        simp [he]
    · have hstep : overdueStep now (s, out) e = (s, out) := by
        simp [overdueStep, hd]
      rw [hstep]
      exact ih s out hl2

theorem overdueFold_of_one_match (now : Int) (tid : String) (l : List FarmerTask) :
    ∀ (s : TaskStore) (out : List FarmerTask),
    l.countP (fun u => decide (u.id = tid)) = 1 →
    (∀ e ∈ l, e.id = tid → e.due_date < now) →
    statusesOf (l.foldl (overdueStep now) (s, out)).1 tid =
      List.replicate (s.countP (fun u => decide (u.id = tid))) TaskStatus.overdue ∧
    (l.foldl (overdueStep now) (s, out)).2.countP (fun u => decide (u.id = tid)) =
      out.countP (fun u => decide (u.id = tid)) + 1 ∧
    (l.foldl (overdueStep now) (s, out)).2.countP
        (fun u => decide (u.id = tid ∧ u.status = TaskStatus.overdue)) =
      out.countP (fun u => decide (u.id = tid ∧ u.status = TaskStatus.overdue)) + 1 := by
  induction l with
  | nil => intro s out hc _; simp at hc
  | cons e l ih =>
    intro s out hc hdue
    rw [List.foldl_cons]
    by_cases he : e.id = tid
    · have hcl : l.countP (fun u => decide (u.id = tid)) = 0 := by
        rw [List.countP_cons, if_pos (show decide (e.id = tid) = true by simp [he])] at hc

        omega
      have hnom : ∀ x ∈ l, x.id ≠ tid := by
        intro x hx
        have := List.countP_eq_zero.mp hcl x hx
        simpa using this
      have hd : e.due_date < now := hdue e (List.mem_cons_self e l) he
      have hstep : overdueStep now (s, out) e =
          ((updateTaskStatus now s e.id TaskStatus.overdue).1,
           out ++ [{ e with status := TaskStatus.overdue }]) := by
        simp [overdueStep, hd]
      rw [hstep]
      obtain ⟨a1, a2, a3⟩ := overdueFold_of_no_match now tid l
        (updateTaskStatus now s e.id TaskStatus.overdue).1
        (out ++ [{ e with status := TaskStatus.overdue }]) hnom
      refine ⟨?_, ?_, ?_⟩
      · rw [a1, he]
        exact statusesOf_updateTaskStatus_self now s tid TaskStatus.overdue none
      · rw [a2, List.countP_append]
        simp [he]
      · rw [a3, List.countP_append]
        simp [he]
    · have hcl : l.countP (fun u => decide (u.id = tid)) = 1 := by
        rw [List.countP_cons, if_neg (show ¬ decide (e.id = tid) = true by simp [he])] at hc

        omega
      have hdl : ∀ x ∈ l, x.id = tid → x.due_date < now :=
        fun x hx => hdue x (List.mem_cons_of_mem e hx)
      by_cases hd : e.due_date < now
      · have hstep : overdueStep now (s, out) e =
            ((updateTaskStatus now s e.id TaskStatus.overdue).1,
             out ++ [{ e with status := TaskStatus.overdue }]) := by
          simp [overdueStep, hd]
        rw [hstep]
        obtain ⟨b1, b2, b3⟩ := ih (updateTaskStatus now s e.id TaskStatus.overdue).1
          (out ++ [{ e with status := TaskStatus.overdue }]) hcl hdl
        refine ⟨?_, ?_, ?_⟩
        · rw [b1, countP_updateTaskStatus]
        · rw [b2, List.countP_append]
          simp [he]
        · rw [b3, List.countP_append]
          simp [he]
      · have hstep : overdueStep now (s, out) e = (s, out) := by
          simp [overdueStep, hd]
        rw [hstep]
        exact ih s out hcl hdl

theorem overdue_call_facts (now : Int) (field_ids : List String)
    (s1 s2 : List FarmerTask) (tsk : FarmerTask)
    (hid : ∀ u ∈ s1 ++ s2, u.id ≠ tsk.id)
    (hst : tsk.status = TaskStatus.pending)
    (hdue : tsk.due_date < now)
    (hf : tsk.field_id ∈ field_ids) :
    statusesOf (getOverdueTasks now (s1 ++ tsk :: s2) field_ids).1 tsk.id =
      [TaskStatus.overdue] ∧
    (getOverdueTasks now (s1 ++ tsk :: s2) field_ids).2.countP
        (fun u => decide (u.id = tsk.id)) = 1 ∧
    (getOverdueTasks now (s1 ++ tsk :: s2) field_ids).2.countP
        (fun u => decide (u.id = tsk.id ∧ u.status = TaskStatus.overdue)) = 1 := by
  have hs1 : s1.countP (fun u => decide (u.id = tsk.id)) = 0 :=
    List.countP_eq_zero.mpr (fun x hx => by
      simpa using hid x (List.mem_append_left s2 hx))
  have hs2 : s2.countP (fun u => decide (u.id = tsk.id)) = 0 :=
    List.countP_eq_zero.mpr (fun x hx => by
      simpa using hid x (List.mem_append_right s1 hx))
  have hstore : (s1 ++ tsk :: s2).countP (fun u => decide (u.id = tsk.id)) = 1 := by
    rw [List.countP_append, List.countP_cons, hs1, hs2]
    simp
  have hq : taskMatchesFilters field_ids
      (some [TaskStatus.pending, TaskStatus.in_progress]) none none tsk = true := by
    simp [taskMatchesFilters, hf, hst]
  have hfetch : (getTasksForFarmer (s1 ++ tsk :: s2) field_ids
      (some [TaskStatus.pending, TaskStatus.in_progress])).countP
        (fun u => decide (u.id = tsk.id)) = 1 := by
    unfold getTasksForFarmer
    rw [countP_sortByLe, List.countP_filter, List.countP_append, List.countP_cons]
    have z1 : s1.countP (fun a => decide (a.id = tsk.id) &&
        taskMatchesFilters field_ids (some [TaskStatus.pending, TaskStatus.in_progress])
          none none a) = 0 :=
      List.countP_eq_zero.mpr (fun x hx => by
        have := hid x (List.mem_append_left s2 hx)
        simp [this])
    have z2 : s2.countP (fun a => decide (a.id = tsk.id) &&
        taskMatchesFilters field_ids (some [TaskStatus.pending, TaskStatus.in_progress])
          none none a) = 0 :=
      List.countP_eq_zero.mpr (fun x hx => by
        have := hid x (List.mem_append_right s1 hx)
        simp [this])
    rw [z1, z2]
    simp [hq]
  have hdl : ∀ e ∈ getTasksForFarmer (s1 ++ tsk :: s2) field_ids
      (some [TaskStatus.pending, TaskStatus.in_progress]), e.id = tsk.id →
      e.due_date < now := by
    intro e he heid
    have hef : e ∈ (s1 ++ tsk :: s2).filter
        (taskMatchesFilters field_ids
          (some [TaskStatus.pending, TaskStatus.in_progress]) none none) := by
      have := he
      unfold getTasksForFarmer at this
      exact mem_sortByLe.mp this
    have hes : e ∈ s1 ++ tsk :: s2 := (List.mem_filter.mp hef).1
    rcases List.mem_append.mp hes with h1 | h1
    · exact absurd heid (hid e (List.mem_append_left s2 h1))
    · rcases List.mem_cons.mp h1 with h2 | h2
      · rw [h2]; exact hdue
      · exact absurd heid (hid e (List.mem_append_right s1 h2))
  obtain ⟨b1, b2, b3⟩ := overdueFold_of_one_match now tsk.id
    (getTasksForFarmer (s1 ++ tsk :: s2) field_ids
      (some [TaskStatus.pending, TaskStatus.in_progress]))
    (s1 ++ tsk :: s2) [] hfetch hdl
  refine ⟨?_, ?_, ?_⟩
  · show statusesOf ((getTasksForFarmer (s1 ++ tsk :: s2) field_ids
      (some [TaskStatus.pending, TaskStatus.in_progress])).foldl (overdueStep now)
        (s1 ++ tsk :: s2, [])).1 tsk.id = [TaskStatus.overdue]
    rw [b1, hstore]
    rfl
  · show ((getTasksForFarmer (s1 ++ tsk :: s2) field_ids
      (some [TaskStatus.pending, TaskStatus.in_progress])).foldl (overdueStep now)
        (s1 ++ tsk :: s2, [])).2.countP (fun u => decide (u.id = tsk.id)) = 1
    rw [b2]
    rfl
  · show ((getTasksForFarmer (s1 ++ tsk :: s2) field_ids
      (some [TaskStatus.pending, TaskStatus.in_progress])).foldl (overdueStep now)
        (s1 ++ tsk :: s2, [])).2.countP
          (fun u => decide (u.id = tsk.id ∧ u.status = TaskStatus.overdue)) = 1
    rw [b3]
    rfl

/-- C3 counterexample: get_upcoming_tasks fetches a pending task whose
due date has passed and returns it, but leaves its stored status as
pending — it performs no lazy overdue transition, contradicting the
claim that every active-task query updates the stored status. -/
theorem claim_C3_counterexample :
    (getUpcomingTasks 10 pendingPastDueStore ["f1"] 7).1 = pendingPastDueStore ∧
    statusesOf (getUpcomingTasks 10 pendingPastDueStore ["f1"] 7).1 "t1" =
      [TaskStatus.pending] ∧
    (getUpcomingTasks 10 pendingPastDueStore ["f1"] 7).2.map FarmerTask.id = ["t1"] ∧
    baseTask.due_date < 10 ∧ TaskStatus.pending ≠ TaskStatus.overdue := by
  refine ⟨rfl, rfl, rfl, by decide, by decide⟩

/-- C3 (amended): only get_overdue_tasks performs the lazy overdue
transition: for a stored pending task whose due date has passed, a
get_overdue_tasks call sets its stored status to overdue and includes
it (with status overdue) in the returned list exactly once per call,
while get_upcoming_tasks never writes the store. -/
theorem claim_C3 (now : Int) (field_ids : List String)
    (s1 s2 : List FarmerTask) (tsk : FarmerTask)
    (hid : ∀ u ∈ s1 ++ s2, u.id ≠ tsk.id)
    (hst : tsk.status = TaskStatus.pending)
    (hdue : tsk.due_date < now)
    (hf : tsk.field_id ∈ field_ids) :
    statusesOf (getOverdueTasks now (s1 ++ tsk :: s2) field_ids).1 tsk.id =
      [TaskStatus.overdue] ∧
    (getOverdueTasks now (s1 ++ tsk :: s2) field_ids).2.countP
        (fun u => decide (u.id = tsk.id)) = 1 ∧
    (getOverdueTasks now (s1 ++ tsk :: s2) field_ids).2.countP
        (fun u => decide (u.id = tsk.id ∧ u.status = TaskStatus.overdue)) = 1 ∧
    ∀ (t2 : Int) (st : TaskStore) (fids : List String) (d : Int),
      (getUpcomingTasks t2 st fids d).1 = st := by
  obtain ⟨h1, h2, h3⟩ := overdue_call_facts now field_ids s1 s2 tsk hid hst hdue hf
  exact ⟨h1, h2, h3, fun _ _ _ _ => rfl⟩

/-- C3 witness: a store holding one pending task due at time 0, queried
at time 10, has that status flipped to overdue and the task reported
once. -/
theorem claim_C3_witness :
    statusesOf (getOverdueTasks 10 [baseTask] ["f1"]).1 "t1" = [TaskStatus.overdue] ∧
    (getOverdueTasks 10 [baseTask] ["f1"]).2.countP (fun u => decide (u.id = "t1")) = 1 :=
  ⟨(claim_C3 10 ["f1"] [] [] baseTask (by simp) rfl (by decide) (by decide)).1,
   (claim_C3 10 ["f1"] [] [] baseTask (by simp) rfl (by decide) (by decide)).2.1⟩

/-- C10: in one get_task_summary call over a store holding a pending
task past its due date, the pending counter (computed from the snapshot
taken before the lazy transition) and the overdue counter (computed from
the subsequent get_overdue_tasks call) both count that task. -/
theorem claim_C10 (now : Int) (field_ids : List String)
    (s1 s2 : List FarmerTask) (tsk : FarmerTask)
    (hid : ∀ u ∈ s1 ++ s2, u.id ≠ tsk.id)
    (hst : tsk.status = TaskStatus.pending)
    (hdue : tsk.due_date < now)
    (hf : tsk.field_id ∈ field_ids) :
    1 ≤ (getTaskSummary now (s1 ++ tsk :: s2) field_ids).2.pending ∧
    1 ≤ (getTaskSummary now (s1 ++ tsk :: s2) field_ids).2.overdue := by
  have hfacts := overdue_call_facts now field_ids s1 s2 tsk hid hst hdue hf
  constructor
  · show 1 ≤ ((getTasksForFarmer (s1 ++ tsk :: s2) field_ids none none none).filter
      (fun t => decide (t.status = TaskStatus.pending))).length
    have htm : tsk ∈ getTasksForFarmer (s1 ++ tsk :: s2) field_ids none none none := by
      unfold getTasksForFarmer
      refine mem_sortByLe.mpr (List.mem_filter.mpr ⟨?_, ?_⟩)
      · exact List.mem_append_right s1 (List.mem_cons_self tsk s2)
      · simp [taskMatchesFilters, hf]
    have hmem : tsk ∈ (getTasksForFarmer (s1 ++ tsk :: s2) field_ids none none none).filter
        (fun t => decide (t.status = TaskStatus.pending)) :=
      List.mem_filter.mpr ⟨htm, by simp [hst]⟩
    exact List.length_pos.mpr (List.ne_nil_of_mem hmem)
  · show 1 ≤ (getOverdueTasks now (s1 ++ tsk :: s2) field_ids).2.length
    exact le_trans (le_of_eq hfacts.2.1.symm) (List.countP_le_length _)

/-- C10 witness: the summary over the one-task store with a pending
past-due task counts it both as pending and as overdue. -/
theorem claim_C10_witness :
    1 ≤ (getTaskSummary 10 [baseTask] ["f1"]).2.pending ∧
    1 ≤ (getTaskSummary 10 [baseTask] ["f1"]).2.overdue :=
  claim_C10 10 ["f1"] [] [] baseTask (by simp) rfl (by decide) (by decide)

/-! ## Lemmas about the alert scan -/

theorem alertSent_iff (log : SentLog) (tid : String) (k : AlertKind) :
    alertSent log tid k = true ↔ (tid, k) ∈ log := by
  unfold alertSent
  rw [List.any_eq_true]
  constructor
  · rintro ⟨⟨a, b⟩, hr, hp⟩
    simp only [decide_eq_true_eq] at hp
    obtain ⟨h1, h2⟩ := hp
    subst h1
    subst h2
    exact hr
  · intro h
    exact ⟨(tid, k), h, by simp⟩

theorem appendRecord_bound (p q : String × AlertKind) (log ds : SentLog)
    (hgate : q = p → p ∉ log) :
    countRec p (ds ++ [q]) + absentWeight p (log ++ [q]) ≤
      countRec p ds + absentWeight p log := by
  unfold countRec absentWeight
  rw [List.countP_append]
  by_cases hpq : q = p
  · subst hpq
    have hnot : q ∉ log := hgate rfl
    rw [if_neg hnot, if_pos (by simp : q ∈ log ++ [q])]
    have hone : List.countP (fun r => decide (r = q)) [q] = 1 := by simp
    omega
  · have h0 : List.countP (fun r => decide (r = p)) [q] = 0 := by simp [hpq]
    have hmem : p ∈ log ++ [q] ↔ p ∈ log := by
      simp [List.mem_append]
      intro h
      exact absurd h.symm hpq
    by_cases hin : p ∈ log
    · rw [if_pos hin, if_pos (hmem.mpr hin)]
      omega
    · rw [if_neg hin, if_neg (fun hc => hin (hmem.mp hc))]
      omega

theorem noChange_bound (p : String × AlertKind) (log ds : SentLog) :
    countRec p (ds ++ []) + absentWeight p log ≤ countRec p ds + absentWeight p log := by
  simp

theorem reminderStep_bound (now : Int) (t : FarmerTask) (p : String × AlertKind)
    (acc : SentLog × SentLog) (n : Nat) :
    countRec p (reminderStep now t acc n).2 + absentWeight p (reminderStep now t acc n).1 ≤
      countRec p acc.2 + absentWeight p acc.1 := by
  simp only [reminderStep]
  split_ifs with h
  · exact appendRecord_bound p (t.id, .reminder n) acc.1 acc.2
      (fun hq => hq ▸ fun hm => h.2.2 ((alertSent_iff acc.1 t.id (.reminder n)).mpr hm))
  · exact le_refl _

theorem checkReminderAlerts_fold_bound (now : Int) (t : FarmerTask)
    (p : String × AlertKind) (cfg : List Nat) :
    ∀ acc : SentLog × SentLog,
    countRec p (cfg.foldl (reminderStep now t) acc).2 +
        absentWeight p (cfg.foldl (reminderStep now t) acc).1 ≤
      countRec p acc.2 + absentWeight p acc.1 := by
  induction cfg with
  | nil => intro acc; exact le_refl _
  | cons n cfg ih =>
    intro acc
    rw [List.foldl_cons]
    exact le_trans (ih (reminderStep now t acc n)) (reminderStep_bound now t p acc n)

theorem checkReminderAlerts_bound (cfg : List Nat) (now : Int) (t : FarmerTask)
    (log : SentLog) (p : String × AlertKind) :
    countRec p (checkReminderAlerts cfg now t log).2 +
        absentWeight p (checkReminderAlerts cfg now t log).1 ≤ absentWeight p log := by
  have h := checkReminderAlerts_fold_bound now t p cfg (log, [])
  simpa [checkReminderAlerts, countRec] using h

theorem unsuitable_simulated (c : TaskCategory) :
    isWeatherUnsuitable c simulatedWeather = false := by
  cases c <;> rfl

theorem checkWeatherAlerts_bound (t : FarmerTask) (log : SentLog) (p : String × AlertKind) :
    countRec p (checkWeatherAlerts t log).2 + absentWeight p (checkWeatherAlerts t log).1 ≤
      absentWeight p log := by
  unfold checkWeatherAlerts
  rw [unsuitable_simulated, if_neg (by simp : ¬ (false = true))]
  split_ifs with h1 h2
  · have := appendRecord_bound p (t.id, .weather_suitable) log []
      (fun hq => hq ▸ fun hm => h1.2 ((alertSent_iff log t.id .weather_suitable).mpr hm))
    simpa [countRec] using this
  · simp [countRec]
  · simp [countRec]

theorem triageAlerts_bound (cfg : List Nat) (now : Int) (log : SentLog)
    (t : FarmerTask) (p : String × AlertKind) (hk : p.2 ≠ AlertKind.overdue) :
    countRec p (triageAlerts cfg now log t).2 +
      absentWeight p (triageAlerts cfg now log t).1 ≤ absentWeight p log := by
  unfold triageAlerts
  split_ifs with ho hu
  · have := appendRecord_bound p (t.id, .overdue) log []
      (fun hq => absurd (congrArg Prod.snd hq).symm hk)
    simpa [countRec] using this
  · have := appendRecord_bound p (t.id, .urgent) log []
      (fun hq => hq ▸ fun hm => hu.2 ((alertSent_iff log t.id .urgent).mpr hm))
    simpa [countRec] using this
  · exact checkReminderAlerts_bound cfg now t log p

theorem processTaskAlerts_bound (cfg : List Nat) (now : Int) (log : SentLog)
    (t : FarmerTask) (p : String × AlertKind) (hk : p.2 ≠ AlertKind.overdue) :
    countRec p (processTaskAlerts cfg now log t).2 +
      absentWeight p (processTaskAlerts cfg now log t).1 ≤ absentWeight p log := by
  have h1 := triageAlerts_bound cfg now log t p hk
  simp only [processTaskAlerts]
  unfold countRec at *
  rw [List.countP_append]
  split_ifs with hw
  · have h2 := checkWeatherAlerts_bound t (triageAlerts cfg now log t).1 p
    unfold countRec at h2
    omega
  · simp only [List.countP_nil]
    omega

theorem checkAndSendAlerts_fold_bound (cfg : List Nat) (now : Int)
    (p : String × AlertKind) (hk : p.2 ≠ AlertKind.overdue) (l : List FarmerTask) :
    ∀ acc : SentLog × SentLog,
    countRec p (l.foldl (fun acc t =>
        ((processTaskAlerts cfg now acc.1 t).1,
         acc.2 ++ (processTaskAlerts cfg now acc.1 t).2)) acc).2 +
      absentWeight p (l.foldl (fun acc t =>
        ((processTaskAlerts cfg now acc.1 t).1,
         acc.2 ++ (processTaskAlerts cfg now acc.1 t).2)) acc).1 ≤
    countRec p acc.2 + absentWeight p acc.1 := by
  induction l with
  | nil => intro acc; exact le_refl _
  | cons t l ih =>
    intro acc
    rw [List.foldl_cons]
    refine le_trans (ih _) ?_
    show countRec p (acc.2 ++ (processTaskAlerts cfg now acc.1 t).2) +
        absentWeight p (processTaskAlerts cfg now acc.1 t).1 ≤
      countRec p acc.2 + absentWeight p acc.1
    have h := processTaskAlerts_bound cfg now acc.1 t p hk
    unfold countRec at *
    rw [List.countP_append]
    omega

theorem checkAndSendAlerts_bound (cfg : List Nat) (now : Int) (store : TaskStore)
    (field_ids : List String) (log : SentLog) (p : String × AlertKind)
    (hk : p.2 ≠ AlertKind.overdue) :
    countRec p (checkAndSendAlerts cfg now store field_ids log).2 +
      absentWeight p (checkAndSendAlerts cfg now store field_ids log).1 ≤
    absentWeight p log := by
  have h := checkAndSendAlerts_fold_bound cfg now p hk
    (getTasksForFarmer store field_ids
      (some [TaskStatus.pending, TaskStatus.in_progress])) (log, [])
  simpa [checkAndSendAlerts, countRec] using h

theorem scanSequence_bound (cfg : List Nat) (store : TaskStore)
    (field_ids : List String) (p : String × AlertKind) (hk : p.2 ≠ AlertKind.overdue)
    (times : List Int) :
    ∀ acc : SentLog × SentLog,
    countRec p (times.foldl (fun acc now =>
        ((checkAndSendAlerts cfg now store field_ids acc.1).1,
         acc.2 ++ (checkAndSendAlerts cfg now store field_ids acc.1).2)) acc).2 +
      absentWeight p (times.foldl (fun acc now =>
        ((checkAndSendAlerts cfg now store field_ids acc.1).1,
         acc.2 ++ (checkAndSendAlerts cfg now store field_ids acc.1).2)) acc).1 ≤
    countRec p acc.2 + absentWeight p acc.1 := by
  induction times with
  | nil => intro acc; exact le_refl _
  | cons now times ih =>
    intro acc
    rw [List.foldl_cons]
    refine le_trans (ih _) ?_
    show countRec p (acc.2 ++ (checkAndSendAlerts cfg now store field_ids acc.1).2) +
        absentWeight p (checkAndSendAlerts cfg now store field_ids acc.1).1 ≤
      countRec p acc.2 + absentWeight p acc.1
    have h := checkAndSendAlerts_bound cfg now store field_ids acc.1 p hk
    unfold countRec at *
    rw [List.countP_append]
    omega

/-- C1 counterexample: a pending task past its due date receives an
overdue alert on every scan — two successive scans over the unchanged
task set dispatch the overdue alert twice for the same task, because the
overdue branch never queries the sent-alert log. -/
theorem claim_C1_counterexample :
    countRec ("t1", AlertKind.overdue)
      (scanSequence [24, 4, 1] [10, 20] pendingPastDueStore ["f1"] []).2 = 2 ∧
    ¬ countRec ("t1", AlertKind.overdue)
      (scanSequence [24, 4, 1] [10, 20] pendingPastDueStore ["f1"] []).2 ≤ 1 := by
  refine ⟨rfl, ?_⟩
  rw [show countRec ("t1", AlertKind.overdue)
      (scanSequence [24, 4, 1] [10, 20] pendingPastDueStore ["f1"] []).2 = 2 from rfl]
  omega

/-- C1 (amended): for every alert kind other than overdue (urgent,
reminder_{N}h, weather_suitable, weather_warning), any sequence of
alert-scan calls over the same task set starting from an empty
sent-alert log dispatches at most one alert of that kind per task;
overdue alerts are gated only on the task status, not on the log, and
can repeat across scans. -/
theorem claim_C1 (cfg : List Nat) (times : List Int) (store : TaskStore)
    (field_ids : List String) (tid : String) (k : AlertKind)
    (hk : k ≠ AlertKind.overdue) :
    countRec (tid, k) (scanSequence cfg times store field_ids []).2 ≤ 1 := by
  have h := scanSequence_bound cfg store field_ids (tid, k) hk times ([], [])
  have hz : countRec (tid, k) (([], []) : SentLog × SentLog).2 +
      absentWeight (tid, k) (([], []) : SentLog × SentLog).1 = 1 := by
    simp [countRec, absentWeight]
  unfold scanSequence
  omega

/-- C1 witness: for the urgent kind, one scan at time 10 over the
one-task store dispatches at most one urgent alert for the task. -/
theorem claim_C1_witness :
    countRec ("t1", AlertKind.urgent)
      (scanSequence [24, 4, 1] [10] pendingPastDueStore ["f1"] []).2 ≤ 1 :=
  claim_C1 [24, 4, 1] [10] pendingPastDueStore ["f1"] "t1" AlertKind.urgent (by decide)
